import Mathlib

/-!
Verification of the command interpretation and dispatch pipeline of the
`lalaji` desktop-assistant repository, as a shallow embedding in Lean.

The embedding mirrors, statement by statement:
  * `src/core/command_engine.py`   (`CommandEngine.get_proper_url`,
    `CommandEngine.llm_interpret_command`),
  * `src/services/file_service.py` (`FileService.search_files`),
  * `src/services/system_service.py` (`SystemService.open_folder`,
    `SystemService.execute_system_command`),
  * `src/core/jarvis_ai.py`        (`JarvisAI.process_command`).

External collaborators (the LLM gateway, the filesystem, subprocess
execution, the vision and voice backends) are modelled as explicit oracle
parameters; machine-level effects (opening files, launching searches) are
recorded in an explicit effect trace so that claims of the form "no fresh
search is performed" are statable.

Two source-level defects are relevant and are modelled as they stand:
  * `src/core/command_engine.py` line 159 calls `json.loads`, but the module
    only does `import re`; the name `json` is unbound, so the call raises
    NameError for every response containing a brace-delimited span, and the
    surrounding `try/except` at lines 149/174 turns that into `return None`.
  * `src/core/jarvis_ai.py` never assigns `self.context['last_search_results']`;
    only `FileService.last_search_results` (a separate object that dispatch
    never reads) is updated by a search.
-/

/-- Python `\s` / `str.strip` whitespace test: space, tab, newline, carriage
return, vertical tab (11) and form feed (12). -/
def pyIsSpace (c : Char) : Bool :=
  c = ' ' || c = '\t' || c = '\n' || c = '\r' || c.toNat == 11 || c.toNat == 12

/-- Python `str.strip()` on a character list: drop whitespace from both ends. -/
def pyStripL (l : List Char) : List Char :=
  ((l.dropWhile pyIsSpace).reverse.dropWhile pyIsSpace).reverse

/-- Python `str.strip()`. -/
def pyStrip (s : String) : String := ⟨pyStripL s.data⟩

/-- Python `str.lower()` (ASCII behaviour, which is all the pipeline feeds it). -/
def pyLower (s : String) : String := ⟨s.data.map Char.toLower⟩

/-- Occurrence test for a character sequence inside another, as in Python
`sub in s`. -/
def listContainsSeq (pat : List Char) : List Char → Bool
  | [] => pat.isEmpty
  | c :: cs => pat.isPrefixOf (c :: cs) || listContainsSeq pat cs

/-- Python `sub in s` on strings. -/
def pyContains (sub s : String) : Bool := listContainsSeq sub.data s.data

/-- Python `s.startswith(pre)`. -/
def pyStartsWith (s pre : String) : Bool := pre.data.isPrefixOf s.data

/-- Python `s.isdigit()` restricted to ASCII digits: non-empty and all digits. -/
def pyIsDigitStr (s : String) : Bool := !s.data.isEmpty && s.data.all Char.isDigit

/-- Python `int(s)` on a digit string. -/
def pyIntOfDigits (s : String) : Nat :=
  s.data.foldl (fun n c => 10 * n + (c.toNat - 48)) 0

/-- Lexicographic `<=` on character lists by code point, Python's string
comparison order. -/
def charListLE : List Char → List Char → Bool
  | [], _ => true
  | _ :: _, [] => false
  | a :: as, b :: bs =>
    if a.toNat < b.toNat then true
    else if b.toNat < a.toNat then false
    else charListLE as bs

/-- URL-token characters excluded by the regex character class
of `url_pattern` at `command_engine.py:61`: whitespace and the code points of
the eleven punctuation characters listed there. -/
def urlExcluded (c : Char) : Bool :=
  pyIsSpace c || [60, 62, 34, 123, 125, 124, 92, 94, 96, 91, 93].contains c.toNat

/-- Number of characters consumed by `re` pattern
`https?://` at the head of the input, if it matches there. -/
def schemeLen (s : List Char) : Option Nat :=
  if ("https://".data).isPrefixOf s then some 8
  else if ("http://".data).isPrefixOf s then some 7
  else none

/-- Maximal run of consecutive scheme prefixes at the head of the input,
returning (how many, total characters consumed).  Structural recursion on a
fuel argument; every step consumes at least seven characters, so fuel equal to
the input length is always sufficient. -/
def schemeRunF : Nat → List Char → Nat × Nat
  | 0, _ => (0, 0)
  | fuel + 1, s =>
    match schemeLen s with
    | none => (0, 0)
    | some n =>
      let p := schemeRunF fuel (s.drop n)
      (p.1 + 1, n + p.2)

/-- Maximal run of consecutive scheme prefixes at the head of the input. -/
def schemeRun (s : List Char) : Nat × Nat := schemeRunF s.length s

/-- The substitution `re.sub(r'https?://(https?://)+', 'https://', url)` at
`command_engine.py:69`, on fuel (one unit per scan position): every maximal
run of two or more scheme prefixes is replaced by a single `https://`. -/
def collapseSchemesF : Nat → List Char → List Char
  | 0, s => s
  | fuel + 1, s =>
    match s with
    | [] => []
    | c :: cs =>
      if 2 ≤ (schemeRun (c :: cs)).1 then
        "https://".data ++ collapseSchemesF fuel ((c :: cs).drop (schemeRun (c :: cs)).2)
      else
        c :: collapseSchemesF fuel cs

/-- The substitution `re.sub(r'https?://(https?://)+', 'https://', url)` at
`command_engine.py:69`. -/
def collapseSchemes (s : List Char) : List Char := collapseSchemesF s.length s

/-- Index of the first occurrence of three consecutive backticks. -/
def findTicks : List Char → Option Nat
  | [] => none
  | c :: cs =>
    if c.toNat == 96 && ([96, 96].map Char.ofNat).isPrefixOf cs then some 0
    else (findTicks cs).map (· + 1)

/-- The substitution removing fenced code blocks,
`re.sub(r'```.*?```', '', url, flags=re.DOTALL)` at `command_engine.py:58`,
on fuel (one unit per scan position): each leftmost pair of triple-backtick
fences is removed, non-greedily, together with everything between them. -/
def stripTickPairsF : Nat → List Char → List Char
  | 0, s => s
  | fuel + 1, s =>
    match s with
    | [] => []
    | c :: cs =>
      if c.toNat == 96 && ([96, 96].map Char.ofNat).isPrefixOf cs then
        match findTicks ((c :: cs).drop 3) with
        | some k => stripTickPairsF fuel ((c :: cs).drop (3 + k + 3))
        | none => c :: stripTickPairsF fuel cs
      else
        c :: stripTickPairsF fuel cs

/-- The fenced-code-block removal of `command_engine.py:58`. -/
def stripTickPairs (s : List Char) : List Char := stripTickPairsF s.length s

/-- Attempt of the regex `https?://[^\s<>"\x7b\x7d|\\^\x60\[\]]+` at the head
of the input: a scheme prefix followed by a non-empty greedy run of allowed
characters. -/
def tryUrlAt (s : List Char) : Option (List Char) :=
  if ("https://".data).isPrefixOf s then
    let run := (s.drop 8).takeWhile (fun c => !urlExcluded c)
    if run.isEmpty then none else some ("https://".data ++ run)
  else if ("http://".data).isPrefixOf s then
    let run := (s.drop 7).takeWhile (fun c => !urlExcluded c)
    if run.isEmpty then none else some ("http://".data ++ run)
  else none

/-- `re.search(url_pattern, url)` at `command_engine.py:62`: leftmost match of
the URL-token pattern. -/
def findUrlToken : List Char → Option (List Char)
  | [] => none
  | c :: cs =>
    match tryUrlAt (c :: cs) with
    | some tok => some tok
    | none => findUrlToken cs

/-- The deterministic fallback of `CommandEngine.get_proper_url`
(`command_engine.py:75-77`, duplicated verbatim at lines 82-84): inputs not
starting with `http` become `https://www.<input>.com`, others are returned
unchanged. -/
def fallback_url (website_input : String) : String :=
  if !pyStartsWith website_input "http" then "https://www." ++ website_input ++ ".com"
  else website_input

/-- `CommandEngine.get_proper_url` (`command_engine.py:20-84`), with the LLM
gateway call abstracted into the `response` argument: `none` models
`call_api` returning `None` (and the `except` path at lines 79-84 runs the
same fallback as the `None` path).  A `some ""` response is falsy in Python's
`if response:` and also takes the fallback. -/
def get_proper_url (website_input : String) (response : Option String) : String :=
  match response with
  | some r =>
    if r = "" then fallback_url website_input
    else
      let url1 := (pyStrip r).data
      let url2 := stripTickPairs url1
      let url3 := pyStripL url2
      let url4 := match findUrlToken url3 with
        | some tok => tok
        | none => url3
      let url5 :=
        if !pyStartsWith ⟨url4⟩ "http://" && !pyStartsWith ⟨url4⟩ "https://" then
          "https://".data ++ url4
        else url4
      ⟨collapseSchemes url5⟩
  | none => fallback_url website_input

/-- The structured result of interpreting a command: the dictionary shape
produced by `CommandEngine.llm_interpret_command` after the dispatcher's
defaulted reads at `jarvis_ai.py:181-186` (`interpretation.get('action',
'CONVERSATION')` and friends).  Only the `params` keys the dispatcher reads
(`direction`, `amount`, `key`, `file_type`) are modelled. -/
structure IntentParams where
  direction : Option String := none
  amount : Option Nat := none
  key : Option String := none
  file_type : Option String := none
  deriving DecidableEq, Repr

/-- Parsed command interpretation, with the dispatcher's defaults applied. -/
structure Intent where
  action : String := "CONVERSATION"
  target : String := ""
  reasoning : String := ""
  executable_hints : List String := []
  folder_paths : List String := []
  params : IntentParams := {}
  response : String := ""
  deriving DecidableEq, Repr

/-- One substitution step of `re.sub(r'```json\s*|\s*```', '', response_text)`
at `command_engine.py:155`: number of characters the alternation consumes at
the head of the input, if it matches there.  The first alternative is a
literal fence opener followed by a greedy whitespace run; the second is a
greedy whitespace run followed by three backticks (backtracking inside the
whitespace run can never succeed, since whitespace is never a backtick). -/
def jsonFenceLen (s : List Char) : Option Nat :=
  if (("```json".data)).isPrefixOf s then
    some (7 + ((s.drop 7).takeWhile pyIsSpace).length)
  else
    let w := (s.takeWhile pyIsSpace).length
    if (([96, 96, 96].map Char.ofNat)).isPrefixOf (s.drop w) then some (w + 3)
    else none

/-- The whole substitution `re.sub(r'```json\s*|\s*```', '', response_text)`
of `command_engine.py:155`, on fuel (one unit per scan position; every match
consumes at least one character, so fuel equal to the input length always
suffices). -/
def stripJsonFencesF : Nat → List Char → List Char
  | 0, s => s
  | fuel + 1, s =>
    match s with
    | [] => []
    | c :: cs =>
      match jsonFenceLen (c :: cs) with
      | some n => stripJsonFencesF fuel ((c :: cs).drop n)
      | none => c :: stripJsonFencesF fuel cs

/-- The Markdown-fence stripping of `command_engine.py:155`. -/
def stripJsonFences (s : List Char) : List Char := stripJsonFencesF s.length s

/-- Success test of `re.search(r'\{.*\}', response_text, re.DOTALL)` at
`command_engine.py:157`: the text has an opening brace with a closing brace
somewhere after it (if the first opening brace has no closing brace after it,
no later one does either). -/
def hasBraceSpan : List Char → Bool
  | [] => false
  | c :: cs =>
    if c.toNat == 123 then cs.any (fun d => d.toNat == 125)
    else hasBraceSpan cs

/-- `CommandEngine.llm_interpret_command` (`command_engine.py:86-176`), with
the gateway call abstracted into the `response` argument (`none` models
`call_api` returning `None`; `some ""` is falsy in Python's `if response:` and
also reaches the final `return None`).

When the brace-span search succeeds, the source executes `json.loads` at
line 159 — but the module only does `import re`, so the name `json` is unbound
and the call raises `NameError`, which the handler at line 174 catches,
returning `None`.  (Even with the import in place, a span that is not valid
JSON would raise `json.JSONDecodeError` into the same handler and return
`None` all the same: the "Fallback if JSON parsing fails" dictionary at
lines 162-170 is reached only when no brace-delimited span is found at all.)
The degraded intent echoes `response_text`, i.e. the stripped,
fence-removed text. -/
def llm_interpret_command (response : Option String) : Option Intent :=
  match response with
  | none => none
  | some r =>
    if r = "" then none
    else
      let response_text := stripJsonFences (pyStrip r).data
      if hasBraceSpan response_text then
        none
      else
        some { action := "CONVERSATION", target := "", reasoning := "Parse error",
               executable_hints := [], folder_paths := [], params := {},
               response := ⟨response_text⟩ }

/-- One file/folder descriptor as built by `FileService.search_files`
(`file_service.py:59-73`).  The Python folder dictionary carries no `size` or
`extension` key; the model keeps those fields at their defaults (`0`, `""`)
for folders, and no claim reads them there. -/
structure SearchEntry where
  path : String
  name : String
  type : String
  size : Nat := 0
  parent : String := ""
  extension : String := ""
  deriving DecidableEq, Repr

/-- Classification of a glob match by `os.path.isfile` / `os.path.isdir`
(`file_service.py:58,67`): a file with its size, a directory, or neither
(which also covers a stat call raising inside the per-match `try`, handled by
`continue` at line 74-75). -/
inductive PathKind where
  | file (size : Nat)
  | dir
  | other
  deriving DecidableEq, Repr

/-- Filesystem oracle consumed by `FileService.search_files`:
`os.path.exists` on search locations, `glob.glob(pattern, recursive=True)`
(with `Except.error` modelling the scan raising into the handler at
`file_service.py:77-79`), and per-path classification. -/
structure FileSystem where
  exists_loc : String → Bool
  globMatches : String → Except Unit (List String)
  kind : String → PathKind

/-- Index (from the right) of the last path separator, as a take-count:
`p.rfind('/') + 1` in `posixpath`. -/
def lastSepCount (l : List Char) : Nat :=
  match l.reverse.findIdx? (fun c => c = '/') with
  | some j => l.length - j
  | none => 0

/-- `os.path.basename` (posix): everything after the last separator. -/
def py_basename (p : String) : String := ⟨p.data.drop (lastSepCount p.data)⟩

/-- `os.path.dirname` (posix): everything up to the last separator, with
trailing separators stripped unless the head is all separators. -/
def py_dirname (p : String) : String :=
  let head := p.data.take (lastSepCount p.data)
  if head.isEmpty then ""
  else if head.all (fun c => c = '/') then ⟨head⟩
  else ⟨(head.reverse.dropWhile (fun c => c = '/')).reverse⟩

/-- `os.path.splitext(p)[1].lower()` (posix): the suffix from the last dot of
the basename, provided some earlier character of the basename is not a dot
(so names consisting only of leading dots have no extension), lower-cased. -/
def py_ext_lower (p : String) : String :=
  let b := (py_basename p).data
  match (b.reverse.findIdx? (fun c => c = '.')) with
  | none => ""
  | some j =>
    let i := b.length - 1 - j
    if (b.take i).any (fun c => c ≠ '.') then ⟨(b.drop i).map Char.toLower⟩
    else ""

/-- `os.path.join` of the three pattern components at `file_service.py:47-49`
(posix separator). -/
def globPattern (location query : String) (file_type : Option String) : String :=
  match file_type with
  | some ft => location ++ "/**/" ++ "*" ++ query ++ "*." ++ ft
  | none => location ++ "/**/" ++ "*" ++ query ++ "*"

/-- The append for a file match (`file_service.py:59-66`). -/
def mkFileEntry (m : String) (sz : Nat) : SearchEntry :=
  { path := m, name := py_basename m, size := sz, type := "file",
    parent := py_dirname m, extension := py_ext_lower m }

/-- The append for a folder match (`file_service.py:67-73`). -/
def mkFolderEntry (m : String) : SearchEntry :=
  { path := m, name := py_basename m, type := "folder", parent := py_dirname m }

/-- The inner `for match in matches` loop of `FileService.search_files`
(`file_service.py:53-75`): appends classified matches to the accumulator,
breaking as soon as `max_results` entries are collected. -/
def collectMatches (fs : FileSystem) (max_results : Nat) :
    List String → List SearchEntry → List SearchEntry
  | [], acc => acc
  | m :: rest, acc =>
    if max_results ≤ acc.length then acc
    else
      match fs.kind m with
      | .file sz => collectMatches fs max_results rest (acc ++ [mkFileEntry m sz])
      | .dir => collectMatches fs max_results rest (acc ++ [mkFolderEntry m])
      | .other => collectMatches fs max_results rest acc

/-- The outer `for location in self.search_locations` loop of
`FileService.search_files` (`file_service.py:40-82`): skips missing
locations, skips locations whose glob raises (`continue` at line 79), and
breaks once `max_results` entries are collected. -/
def collectLocations (fs : FileSystem) (query : String) (file_type : Option String)
    (max_results : Nat) : List String → List SearchEntry → List SearchEntry
  | [], acc => acc
  | loc :: rest, acc =>
    if !fs.exists_loc loc then collectLocations fs query file_type max_results rest acc
    else
      match fs.globMatches (globPattern loc query file_type) with
      | .error _ => collectLocations fs query file_type max_results rest acc
      | .ok ms =>
        let acc' := collectMatches fs max_results ms acc
        if max_results ≤ acc'.length then acc'
        else collectLocations fs query file_type max_results rest acc'

/-- Sort flag for the key
`lambda x: (x['type'] != 'folder', x['name'].lower())` at
`file_service.py:85`: `0` for folders (Python `False`), `1` otherwise. -/
def entryFlag (e : SearchEntry) : Nat := if e.type = "folder" then 0 else 1

/-- The sort key comparison of `file_service.py:85`: ascending lexicographic
order on the pair (is-not-a-folder, lower-cased name). -/
def entryLE (a b : SearchEntry) : Bool :=
  decide (entryFlag a < entryFlag b) ||
    (decide (entryFlag a = entryFlag b) &&
      charListLE (pyLower a.name).data (pyLower b.name).data)


theorem charListLE_refl (l : List Char) : charListLE l l = true := by
  induction l with
  | nil => rfl
  | cons a as ih => simp [charListLE, ih]

theorem charListLE_total (a : List Char) :
    ∀ b, (charListLE a b || charListLE b a) = true := by
  induction a with
  | nil => intro b; simp [charListLE]
  | cons x xs ih =>
    intro b
    cases b with
    | nil => simp [charListLE]
    | cons y ys =>
      by_cases h1 : x.toNat < y.toNat
      · simp [charListLE, h1]
      · by_cases h2 : y.toNat < x.toNat
        · simp [charListLE, h1, h2]
        · simpa [charListLE, h1, h2] using ih ys

theorem charListLE_trans :
    ∀ (a b c : List Char), charListLE a b = true → charListLE b c = true →
      charListLE a c = true := by
  intro a
  induction a with
  | nil => intro b c _ _; simp [charListLE]
  | cons x xs ih =>
    intro b c hab hbc
    cases b with
    | nil => simp [charListLE] at hab
    | cons y ys =>
      cases c with
      | nil => simp [charListLE] at hbc
      | cons z zs =>
        simp only [charListLE] at hab hbc ⊢
        rcases Nat.lt_trichotomy x.toNat y.toNat with h1 | h1 | h1
        · rcases Nat.lt_trichotomy y.toNat z.toNat with h2 | h2 | h2
          · have hlt : x.toNat < z.toNat := by omega
            simp [hlt]
          · have hlt : x.toNat < z.toNat := by omega
            simp [hlt]
          · have hny : ¬y.toNat < z.toNat := by omega
            simp [hny, h2] at hbc
        · rcases Nat.lt_trichotomy y.toNat z.toNat with h2 | h2 | h2
          · have hlt : x.toNat < z.toNat := by omega
            simp [hlt]
          · have hn1 : ¬x.toNat < y.toNat := by omega
            have hn1' : ¬y.toNat < x.toNat := by omega
            have hn2 : ¬y.toNat < z.toNat := by omega
            have hn2' : ¬z.toNat < y.toNat := by omega
            have hn3 : ¬x.toNat < z.toNat := by omega
            have hn3' : ¬z.toNat < x.toNat := by omega
            simp [hn1, hn1'] at hab
            simp [hn2, hn2'] at hbc
            simp [hn3, hn3']
            exact ih ys zs hab hbc
          · have hny : ¬y.toNat < z.toNat := by omega
            simp [hny, h2] at hbc
        · have hnx : ¬x.toNat < y.toNat := by omega
          simp [hnx, h1] at hab

theorem entryLE_trans :
    ∀ a b c, entryLE a b = true → entryLE b c = true → entryLE a c = true := by
  intro a b c hab hbc
  simp only [entryLE, Bool.or_eq_true, Bool.and_eq_true, decide_eq_true_eq] at *
  rcases hab with h | ⟨h, h'⟩ <;> rcases hbc with g | ⟨g, g'⟩
  · exact Or.inl (by omega)
  · exact Or.inl (by omega)
  · exact Or.inl (by omega)
  · exact Or.inr ⟨by omega, charListLE_trans _ _ _ h' g'⟩

theorem entryLE_total : ∀ a b, (entryLE a b || entryLE b a) = true := by
  intro a b
  simp only [entryLE, Bool.or_eq_true, Bool.and_eq_true, decide_eq_true_eq]
  rcases Nat.lt_trichotomy (entryFlag a) (entryFlag b) with h | h | h
  · exact Or.inl (Or.inl h)
  · have := charListLE_total (pyLower a.name).data (pyLower b.name).data
    rcases Bool.or_eq_true_iff.mp this with h' | h'
    · exact Or.inl (Or.inr ⟨h, h'⟩)
    · exact Or.inr (Or.inr ⟨h.symm, h'⟩)
  · exact Or.inr (Or.inl h)

theorem entryFlag_eq_zero_iff (e : SearchEntry) :
    entryFlag e = 0 ↔ e.type = "folder" := by
  unfold entryFlag
  split <;> simp_all

/-- The sort-key order as a decidable relation, for `List.insertionSort`. -/
def entryLEP (a b : SearchEntry) : Prop := entryLE a b = true

instance : DecidableRel entryLEP := fun a b =>
  inferInstanceAs (Decidable (entryLE a b = true))

instance : IsTotal SearchEntry entryLEP :=
  ⟨fun a b => Bool.or_eq_true_iff.mp (entryLE_total a b)⟩

instance : IsTrans SearchEntry entryLEP :=
  ⟨fun a b c => entryLE_trans a b c⟩

/-- `FileService.search_files` (`file_service.py:22-93`): collect matches per
location up to `max_results`, then sort folders first, alphabetically by
lower-cased name within each group.  Python's `list.sort` is a stable
ascending sort; it is modelled by `List.insertionSort`, which is likewise
stable for this total preorder. -/
def search_files (fs : FileSystem) (search_locations : List String) (query : String)
    (file_type : Option String) (max_results : Nat) : List SearchEntry :=
  List.insertionSort entryLEP
    (collectLocations fs query file_type max_results search_locations [])

/-- `os.path.join(a, b)` for the two-component joins in
`system_service.py:194-200` (separator written `/`; the separator character
plays no role in any claim, paths are opaque strings to every oracle). -/
def pyJoin (a b : String) : String := if a = "" then b else a ++ "/" ++ b

/-- Result of `subprocess.run(command, shell=True, capture_output=True,
text=True)` when the invocation itself does not raise: the child's return
code and captured output, whatever the return code is. -/
structure ShellResult where
  returncode : Int
  stdout : String := ""
  stderr : String := ""
  deriving DecidableEq, Repr

/-- The dictionary returned by `SystemService.execute_system_command`
(`system_service.py:254-284`). -/
structure SysCmdResult where
  success : Bool
  returncode : Option Int := none
  stdout : Option String := none
  stderr : Option String := none
  error : Option String := none
  deriving DecidableEq, Repr

/-- `SystemService.execute_system_command` (`system_service.py:254-284`), with
the `subprocess.run` call abstracted into its outcome: `Except.ok` when the
invocation does not raise (whatever the child's return code), `Except.error`
with the exception message when it does.  Both arms of the `if` at lines
265-272 run the identical `subprocess.run` call. -/
def execute_system_command (outcome : Except String ShellResult) : SysCmdResult :=
  match outcome with
  | .ok r => { success := true, returncode := some r.returncode,
               stdout := some r.stdout, stderr := some r.stderr }
  | .error e => { success := false, error := some e }

/-- Environment consumed by `SystemService.open_folder`
(`system_service.py:174-252`): the OS family, `os.environ.get('USERPROFILE',
'')`, `os.path.exists`, and the two expansion functions applied to path
templates. -/
structure FolderEnv where
  os_type : String
  userprofile : String
  exists_path : String → Bool
  expandvars : String → String
  expanduser : String → String

/-- The `common_folders` table of `system_service.py:193-201`.  Note the last
key is the string `one_drive`, with an underscore, exactly as in the source. -/
def common_folders (user_profile : String) : List (String × String) :=
  [("downloads", pyJoin user_profile "Downloads"),
   ("documents", pyJoin user_profile "Documents"),
   ("desktop", pyJoin user_profile "Desktop"),
   ("pictures", pyJoin user_profile "Pictures"),
   ("music", pyJoin user_profile "Music"),
   ("videos", pyJoin user_profile "Videos"),
   ("one_drive", pyJoin user_profile "OneDrive")]

/-- The `for path_template in folder_paths` loop of
`system_service.py:213-218`: `os.path.expandvars`, then `os.path.expanduser`,
then open the first path that exists. -/
def first_existing_template (env : FolderEnv) : List String → Option String
  | [] => none
  | t :: rest =>
    let path := env.expanduser (env.expandvars t)
    if env.exists_path path then some path else first_existing_template env rest

/-- The macOS/Linux loop of `system_service.py:238-250`: `os.path.expanduser`
only, open the first path that exists. -/
def first_existing_user (env : FolderEnv) : List String → Option String
  | [] => none
  | t :: rest =>
    let path := env.expanduser t
    if env.exists_path path then some path else first_existing_user env rest

/-- The `common_folders` consultation of `system_service.py:203-210`: look the
lower-cased name up in the alias table and open that path if it exists (a
present key whose path does not exist falls through to the next strategy). -/
def alias_resolve (env : FolderEnv) (folder_name : String) : Option String :=
  match (common_folders env.userprofile).lookup (pyLower folder_name) with
  | some path => if env.exists_path path then some path else none
  | none => none

/-- The file-search fallback of `system_service.py:220-229`: run the same
search as `FileService.search_files` (default `max_results=50`) on a fresh
`FileService`, keep the folders, open the first one if any. -/
def folder_search_resolve (fs : FileSystem) (search_locations : List String)
    (folder_name : String) : Option String :=
  match (search_files fs search_locations folder_name none 50).filter
      (fun r => r.type == "folder") with
  | f :: _ => some f.path
  | [] => none

/-- The final fallback of `system_service.py:231-234`: the raw string as a
literal path. -/
def literal_resolve (env : FolderEnv) (folder_name : String) : Option String :=
  if env.exists_path folder_name then some folder_name else none

/-- `SystemService.open_folder` (`system_service.py:174-252`), returning the
path handed to `os.startfile`/`open`/`xdg-open` when the function returns
`True`, and `none` when it returns `False`. -/
def open_folder (env : FolderEnv) (fs : FileSystem) (search_locations : List String)
    (folder_name : String) (folder_paths : List String) : Option String :=
  if env.os_type = "Windows" then
    match alias_resolve env folder_name with
    | some p => some p
    | none =>
      match first_existing_template env folder_paths with
      | some p => some p
      | none =>
        match folder_search_resolve fs search_locations folder_name with
        | some p => some p
        | none => literal_resolve env folder_name
  else if env.os_type = "Darwin" then first_existing_user env folder_paths
  else if env.os_type = "Linux" then first_existing_user env folder_paths
  else none

/-- The session context dictionary initialized at `jarvis_ai.py:32-38`. -/
structure Context where
  last_browser_tab : Option String := none
  last_app : Option String := none
  conversation_history : List String := []
  screen_elements : List String := []
  last_search_results : List SearchEntry := []
  deriving DecidableEq, Repr

/-- The uniform result envelope returned by `JarvisAI.process_command`:
`success` and `response` always, the other keys only on the branches that set
them (modelled as `Option`, `none` meaning the key is absent). -/
structure ResultDict where
  success : Bool
  response : String := ""
  action : Option String := none
  results : Option (List SearchEntry) := none
  url : Option String := none
  deriving DecidableEq, Repr

/-- Outcome of `analyze_screen_with_vision` (`jarvis_ai.py:78-98`): `none`
when capture or the vision call fails, otherwise the fields the dispatcher
reads from the vision dictionary. -/
structure VisionResult where
  action : Option String := none
  approximate_position : Option (Int × Int) := none
  response : Option String := none
  deriving DecidableEq, Repr

/-- Backend invocation trace of one `process_command` call, in order. -/
inductive Effect where
  | interpret (command : String)
  | searchFiles (query : String) (file_type : Option String)
  | openFile (path : String)
  | openApp (name : String) (hints : List String)
  | openFolder (name : String) (paths : List String)
  | scroll (direction : String) (amount : Nat)
  | typeText (text : String)
  | pressKey (key : String)
  | searchWeb (query : String)
  | youtubeSearch (query : String)
  | playYoutube (query : String)
  | openWebsite (site : String)
  | captureScreen
  | shell (command : String)
  deriving DecidableEq, Repr

/-- Test for a fresh-file-search effect. -/
def isSearchEffect : Effect → Bool
  | .searchFiles _ _ => true
  | _ => false

/-- No fresh file search appears in the trace. -/
def noSearchEffect (effs : List Effect) : Bool := effs.all (fun e => !isSearchEffect e)

/-- Oracles for every collaborator `JarvisAI.process_command` calls.
`interpret` is `llm_interpret_command` on this command's gateway exchange;
`searchFiles` is `FileService.search_files` with its default
`max_results=50`; `getFileInfoName` is the `name` field of
`FileService.get_file_info` with `none` for its `None` result; `shellOutcome`
is the `subprocess.run` outcome fed to `execute_system_command`; the
remaining fields are the success flags / results of the other backends. -/
structure Env where
  interpret : String → Option Intent
  searchFiles : String → Option String → List SearchEntry
  openFile : String → Bool
  getFileInfoName : String → Option String
  openAppOk : String → List String → Bool
  openFolderOk : String → List String → Bool
  vision : String → Option VisionResult
  clickOk : Int → Int → Bool
  scrollOk : String → Nat → Bool
  typeOk : String → Bool
  keyOk : String → Bool
  playYoutubeOk : String → Bool
  urlFor : String → String
  shellOutcome : String → Except String ShellResult

/-- The exit-keyword test of `jarvis_ai.py:168`:
`any(word in command_lower for word in ['exit', 'quit', 'goodbye'])`. -/
def hasExitKeyword (command : String) : Bool :=
  let command_lower := pyLower command
  pyContains "exit" command_lower || pyContains "quit" command_lower ||
    pyContains "goodbye" command_lower

/-- A dummy entry for the (guarded) positional read at `jarvis_ai.py:240`;
only read under the bounds check `0 <= idx < len(...)`. -/
def dummyEntry : SearchEntry := { path := "", name := "", type := "" }

/-- `JarvisAI.process_command` (`jarvis_ai.py:153-320`) as a pure transition:
given the backend oracles, the session context and the raw command, produce
the Python return value (`Except.error` modelling an uncaught exception — the
only reachable one in the modelled branches is the `AttributeError` from
`get_file_info(...)  .get(...)` at line 242 when `get_file_info` returns
`None`), the post-state of the context, and the trace of backend calls.
`speak` returns its argument (`voice_module.py:75-92`), so responses are the
spoken texts themselves. -/
def process_command (env : Env) (ctx : Context) (command : String) :
    Except String ResultDict × Context × List Effect :=
  if command = "" then
    (.ok { success := false, response := "No command received" }, ctx, [])
  else if hasExitKeyword command then
    (.ok { success := true, response := "Goodbye!", action := some "exit" }, ctx, [])
  else
    match env.interpret command with
    | none =>
      (.ok { success := false, response := "I couldn't understand that." }, ctx,
        [.interpret command])
    | some interp =>
      let target := interp.target
      let ai_response := interp.response
      let params := interp.params
      match interp.action with
      | "SCROLL" =>
        let direction := params.direction.getD target
        let amount := params.amount.getD 3
        (.ok { success := env.scrollOk direction amount, response := ai_response,
               action := some "scroll" }, ctx,
         [.interpret command, .scroll direction amount])
      | "TYPE_TEXT" =>
        (.ok { success := env.typeOk target, response := ai_response,
               action := some "type" }, ctx, [.interpret command, .typeText target])
      | "PRESS_KEY" =>
        let key := params.key.getD target
        (.ok { success := env.keyOk key, response := ai_response,
               action := some "keypress" }, ctx, [.interpret command, .pressKey key])
      | "SEARCH_FILES" =>
        let file_type := params.file_type
        let results := env.searchFiles target file_type
        if results.isEmpty then
          (.ok { success := false, response := "No files or folders found." }, ctx,
           [.interpret command, .searchFiles target file_type])
        else
          let folders := results.filter (fun r => r.type == "folder")
          let files := results.filter (fun r => r.type == "file")
          (.ok { success := true,
                 response := "Found " ++ toString folders.length ++ " folders and " ++
                   toString files.length ++ " files.",
                 action := some "search_files", results := some results }, ctx,
           [.interpret command, .searchFiles target file_type])
      | "OPEN_FILE" =>
        if pyIsDigitStr target && !ctx.last_search_results.isEmpty then
          let idx : Int := (pyIntOfDigits target : Int) - 1
          if 0 ≤ idx ∧ idx < (ctx.last_search_results.length : Int) then
            let file_path := (ctx.last_search_results.getD idx.toNat dummyEntry).path
            let ok := env.openFile file_path
            match env.getFileInfoName file_path with
            | some nm =>
              (.ok { success := ok, response := "Opening " ++ nm,
                     action := some "open_file" }, ctx,
               [.interpret command, .openFile file_path])
            | none =>
              (.error "AttributeError", ctx, [.interpret command, .openFile file_path])
          else
            (.ok { success := false, response := "File not found." }, ctx,
             [.interpret command])
        else
          let results := env.searchFiles target none
          match results with
          | r0 :: _ =>
            (.ok { success := env.openFile r0.path, response := "Opening " ++ r0.name,
                   action := some "open_file" }, ctx,
             [.interpret command, .searchFiles target none, .openFile r0.path])
          | [] =>
            (.ok { success := false, response := "File not found." }, ctx,
             [.interpret command, .searchFiles target none])
      | "OPEN_APP" =>
        let ok := env.openAppOk target interp.executable_hints
        (.ok { success := ok,
               response := if ok then ai_response else "Couldn't find " ++ target,
               action := some "open_app" }, ctx,
         [.interpret command, .openApp target interp.executable_hints])
      | "OPEN_FOLDER" =>
        let ok := env.openFolderOk target interp.folder_paths
        (.ok { success := ok,
               response := if ok then ai_response
                 else "Couldn't find " ++ target ++ " folder",
               action := some "open_folder" }, ctx,
         [.interpret command, .openFolder target interp.folder_paths])
      | "SCREEN_CLICK" =>
        match env.vision command with
        | some vr =>
          if vr.action == some "CLICK" then
            match vr.approximate_position with
            | some pos =>
              (.ok { success := env.clickOk pos.1 pos.2,
                     response := vr.response.getD "Clicked", action := some "click" },
               ctx, [.interpret command, .captureScreen])
            | none =>
              (.ok { success := false, response := "Couldn't identify click target." },
               ctx, [.interpret command, .captureScreen])
          else
            (.ok { success := false, response := "Couldn't identify click target." },
             ctx, [.interpret command, .captureScreen])
        | none =>
          (.ok { success := false, response := "Couldn't identify click target." },
           ctx, [.interpret command, .captureScreen])
      | "SCREEN_ANALYZE" =>
        match env.vision command with
        | some vr =>
          (.ok { success := true, response := vr.response.getD "Screen analyzed",
                 action := some "analyze" }, ctx, [.interpret command, .captureScreen])
        | none =>
          (.ok { success := false, response := "Couldn't analyze screen." }, ctx,
           [.interpret command, .captureScreen])
      | "SEARCH_WEB" =>
        (.ok { success := true, response := ai_response, action := some "search" },
         { ctx with last_browser_tab := some "search" },
         [.interpret command, .searchWeb target])
      | "SEARCH_YOUTUBE" =>
        (.ok { success := true, response := ai_response, action := some "youtube" },
         { ctx with last_browser_tab := some "youtube" },
         [.interpret command, .youtubeSearch target])
      | "PLAY_YOUTUBE" =>
        let ok := env.playYoutubeOk target
        (.ok { success := ok,
               response := if ok then ai_response else "Couldn't play " ++ target,
               action := some "play_youtube" },
         if ok then { ctx with last_browser_tab := some "youtube_video" } else ctx,
         [.interpret command, .playYoutube target])
      | "OPEN_WEBSITE" =>
        let url := env.urlFor target
        (.ok { success := true, response := ai_response, action := some "website",
               url := some url },
         { ctx with last_browser_tab := some target },
         [.interpret command, .openWebsite target])
      | "CONVERSATION" =>
        (.ok { success := true, response := ai_response, action := some "conversation" },
         ctx, [.interpret command])
      | "SYSTEM_COMMAND" =>
        let result := execute_system_command (env.shellOutcome target)
        (.ok { success := result.success,
               response := if result.success then ai_response
                 else "Error: " ++ result.error.getD "Unknown error",
               action := some "system" }, ctx, [.interpret command, .shell target])
      | _ =>
        (.ok { success := false, response := "I'm not sure how to handle that." },
         ctx, [.interpret command])

/-- Inert oracle set: every backend refuses, the parser returns nothing.
Used to instantiate universally quantified theorems at closed inputs. -/
def baseEnv : Env :=
  { interpret := fun _ => none, searchFiles := fun _ _ => [],
    openFile := fun _ => false, getFileInfoName := fun _ => none,
    openAppOk := fun _ _ => false, openFolderOk := fun _ _ => false,
    vision := fun _ => none, clickOk := fun _ _ => false,
    scrollOk := fun _ _ => false, typeOk := fun _ => false,
    keyOk := fun _ => false, playYoutubeOk := fun _ => false,
    urlFor := fun _ => "", shellOutcome := fun _ => .error "boom" }

/-- Whether a shell-invocation outcome is a non-raising run. -/
def shellOk (o : Except String ShellResult) : Bool :=
  match o with
  | .ok _ => true
  | .error _ => false

/-- Concrete filesystem fixture: one search location `home` whose glob yields
two directories and one file. -/
def witnessFS : FileSystem :=
  { exists_loc := fun l => l == "home",
    globMatches := fun _ => .ok ["home/notes", "home/sub/adoc.txt", "home/Art"],
    kind := fun p => if p == "home/sub/adoc.txt" then PathKind.file 5 else PathKind.dir }

/-- Filesystem fixture on which every path is missing and every glob is empty. -/
def emptyFS : FileSystem :=
  { exists_loc := fun _ => false, globMatches := fun _ => .ok [],
    kind := fun _ => PathKind.other }

/-- Folder-environment fixture: Windows, with exactly the user's OneDrive
folder existing on disk. -/
def oneDriveEnv : FolderEnv :=
  { os_type := "Windows", userprofile := "C:/Users/u",
    exists_path := fun p => p == "C:/Users/u/OneDrive",
    expandvars := id, expanduser := id }

/-- Folder-environment fixture: Windows, with both the user's Downloads
folder and an alternative candidate path existing on disk. -/
def downloadsEnv : FolderEnv :=
  { os_type := "Windows", userprofile := "C:/Users/u",
    exists_path := fun p => p == "C:/Users/u/Downloads" || p == "D:/alt",
    expandvars := id, expanduser := id }

/-- A file entry fixture. -/
def reportEntry : SearchEntry :=
  { path := "home/report.txt", name := "report.txt", type := "file", size := 7,
    parent := "home", extension := ".txt" }

/-- A SEARCH_FILES intent fixture. -/
def searchIntent : Intent :=
  { action := "SEARCH_FILES", target := "report", response := "Searching" }

/-- Oracle fixture for a SEARCH_FILES dispatch whose backend search finds one
file. -/
def c1Env : Env :=
  { baseEnv with interpret := fun _ => some searchIntent,
                 searchFiles := fun _ _ => [reportEntry] }

/-- First stored search result fixture. -/
def entryAlpha : SearchEntry :=
  { path := "home/alpha.txt", name := "alpha.txt", type := "file" }

/-- Second stored search result fixture. -/
def entryBeta : SearchEntry :=
  { path := "home/beta.txt", name := "beta.txt", type := "file" }

/-- Context fixture holding two prior search results. -/
def twoResultsCtx : Context := { last_search_results := [entryAlpha, entryBeta] }

/-- An OPEN_FILE intent with the ordinal target `2`. -/
def openIntentTwo : Intent := { action := "OPEN_FILE", target := "2" }

/-- An OPEN_FILE intent with the out-of-range ordinal target `99`. -/
def openIntentNinetyNine : Intent := { action := "OPEN_FILE", target := "99" }

/-- Oracle fixture for the in-range ordinal OPEN_FILE dispatch. -/
def c2Env : Env :=
  { baseEnv with interpret := fun _ => some openIntentTwo,
                 openFile := fun _ => true,
                 getFileInfoName := fun _ => some "beta.txt" }

/-- Oracle fixture for the out-of-range ordinal OPEN_FILE dispatch. -/
def c3Env : Env :=
  { baseEnv with interpret := fun _ => some openIntentNinetyNine }

/-- A SYSTEM_COMMAND intent fixture. -/
def sysIntent : Intent :=
  { action := "SYSTEM_COMMAND", target := "exit 1", response := "Done" }

/-- Oracle fixture for a SYSTEM_COMMAND dispatch whose child process exits
with the non-zero return code 1 (the invocation itself does not raise). -/
def c5Env : Env :=
  { baseEnv with interpret := fun _ => some sysIntent,
                 shellOutcome := fun _ => .ok { returncode := 1 } }

/-- C6: given a gateway response text of `https://https://example.com`, the
URL normalizer's output is exactly `https://example.com` — the duplicated
scheme prefix collapses to a single leading `https://` — whatever the site
input was. -/
theorem get_proper_url_collapses_duplicate_scheme :
    ∀ website_input : String,
      get_proper_url website_input (some "https://https://example.com") =
        "https://example.com" :=
  fun _ => rfl

/-- C7 counterexample: for the site input `http`, a failed gateway call makes
`get_proper_url` return the input itself, which is not
`https://www.http.com`; the claimed fallback shape does not hold for every
site input. -/
theorem get_proper_url_fallback_not_universal :
    get_proper_url "http" none = "http" ∧
      get_proper_url "http" none ≠ "https://www.http.com" := by
  exact ⟨rfl, by decide⟩

/-- C7 (amended): when the gateway call fails outright the normalizer still
returns (it never fails): `https://www.<input>.com` for every site input not
starting with `http`, and the input unchanged otherwise. -/
theorem get_proper_url_fallback_shape :
    ∀ website_input : String,
      get_proper_url website_input none =
        if !pyStartsWith website_input "http" then
          "https://www." ++ website_input ++ ".com"
        else website_input :=
  fun _ => rfl

/-- C4 (code evaluated at the failing input): a non-empty gateway response
whose brace-delimited span is not valid JSON — here the three characters
open-brace, `x`, close-brace — makes `llm_interpret_command` return `none`,
not the degraded CONVERSATION intent: `command_engine.py` never imports
`json`, so `json.loads` at line 159 raises `NameError` into the handler at
line 174 (and with the import in place the `JSONDecodeError` would land in
the same handler), which returns `None`. -/
theorem llm_interpret_invalid_json_returns_none :
    llm_interpret_command (some "\x7bx\x7d") = none := by decide

theorem collectMatches_length (fs : FileSystem) (max_results : Nat) :
    ∀ (ms : List String) (acc : List SearchEntry), acc.length ≤ max_results →
      (collectMatches fs max_results ms acc).length ≤ max_results := by
  intro ms
  induction ms with
  | nil => intro acc h; simpa [collectMatches] using h
  | cons m rest ih =>
    intro acc h
    simp only [collectMatches]
    split
    · exact h
    · rename_i hb
      cases hk : fs.kind m with
      | file sz =>
        simp only [hk]
        exact ih _ (by simp; omega)
      | dir =>
        simp only [hk]
        exact ih _ (by simp; omega)
      | other =>
        simp only [hk]
        exact ih _ h

theorem collectLocations_length (fs : FileSystem) (query : String)
    (file_type : Option String) (max_results : Nat) :
    ∀ (locs : List String) (acc : List SearchEntry), acc.length ≤ max_results →
      (collectLocations fs query file_type max_results locs acc).length ≤ max_results := by
  intro locs
  induction locs with
  | nil => intro acc h; simpa [collectLocations] using h
  | cons loc rest ih =>
    intro acc h
    simp only [collectLocations]
    split
    · exact ih _ h
    · cases hg : fs.globMatches (globPattern loc query file_type) with
      | error e => simp only [hg]; exact ih _ h
      | ok ms =>
        simp only [hg]
        have hm := collectMatches_length fs max_results ms acc h
        split
        · exact hm
        · exact ih _ hm

theorem collectMatches_mem (fs : FileSystem) (max_results : Nat) :
    ∀ (ms : List String) (acc : List SearchEntry) (e : SearchEntry),
      e ∈ collectMatches fs max_results ms acc →
        e ∈ acc ∨ e.type = "file" ∨ e.type = "folder" := by
  intro ms
  induction ms with
  | nil => intro acc e he; exact Or.inl (by simpa [collectMatches] using he)
  | cons m rest ih =>
    intro acc e he
    simp only [collectMatches] at he
    split at he
    · exact Or.inl he
    · cases hk : fs.kind m with
      | file sz =>
        rw [hk] at he
        rcases ih _ _ he with hin | h
        · rcases List.mem_append.mp hin with h' | h'
          · exact Or.inl h'
          · simp at h'
            subst h'
            exact Or.inr (Or.inl rfl)
        · exact Or.inr h
      | dir =>
        rw [hk] at he
        rcases ih _ _ he with hin | h
        · rcases List.mem_append.mp hin with h' | h'
          · exact Or.inl h'
          · simp at h'
            subst h'
            exact Or.inr (Or.inr rfl)
        · exact Or.inr h
      | other =>
        rw [hk] at he
        exact ih _ _ he

theorem collectLocations_mem (fs : FileSystem) (query : String)
    (file_type : Option String) (max_results : Nat) :
    ∀ (locs : List String) (acc : List SearchEntry) (e : SearchEntry),
      e ∈ collectLocations fs query file_type max_results locs acc →
        e ∈ acc ∨ e.type = "file" ∨ e.type = "folder" := by
  intro locs
  induction locs with
  | nil => intro acc e he; exact Or.inl (by simpa [collectLocations] using he)
  | cons loc rest ih =>
    intro acc e he
    simp only [collectLocations] at he
    split at he
    · exact ih _ _ he
    · cases hg : fs.globMatches (globPattern loc query file_type) with
      | error u =>
        simp only [hg] at he
        exact ih _ _ he
      | ok ms =>
        simp only [hg] at he
        split at he
        · exact collectMatches_mem fs max_results ms acc e he
        · rcases ih _ _ he with hin | h
          · exact collectMatches_mem fs max_results ms acc e hin
          · exact Or.inr h


theorem sorted_head_folder_min (l : List SearchEntry)
    (hs : List.Sorted entryLEP l) :
    ∀ e ∈ l, e.type = "folder" →
      ∃ h, l.head? = some h ∧ h.type = "folder" ∧
        charListLE (pyLower h.name).data (pyLower e.name).data = true := by
  intro e he hf
  cases l with
  | nil => simp at he
  | cons h t =>
    rcases List.mem_cons.mp he with rfl | ht
    · exact ⟨e, rfl, hf, charListLE_refl _⟩
    · have hrel : entryLE h e = true := (List.sorted_cons.mp hs).1 e ht
      simp only [entryLE, Bool.or_eq_true, Bool.and_eq_true, decide_eq_true_eq] at hrel
      have hef : entryFlag e = 0 := (entryFlag_eq_zero_iff e).mpr hf
      rcases hrel with hlt | ⟨heq, hle⟩
      · omega
      · have hhf : h.type = "folder" := (entryFlag_eq_zero_iff h).mp (by omega)
        exact ⟨h, rfl, hhf, hle⟩

/-- C10: for every filesystem, search-location list, query, file-type filter
and `max_results` bound, `FileService.search_files` returns at most
`max_results` entries, each tagged `file` or `folder`, ordered with all
folders before all files and alphabetically by lower-cased name within each
group; consequently the first entry — the "first hit" a fresh OPEN_FILE
search opens — is an alphabetically first matching folder whenever any folder
is among the returned results. -/
theorem search_files_result_shape (fs : FileSystem) (locs : List String)
    (query : String) (file_type : Option String) (max_results : Nat) :
    (search_files fs locs query file_type max_results).length ≤ max_results ∧
    (∀ e ∈ search_files fs locs query file_type max_results,
      e.type = "file" ∨ e.type = "folder") ∧
    List.Sorted entryLEP (search_files fs locs query file_type max_results) ∧
    (∀ e ∈ search_files fs locs query file_type max_results, e.type = "folder" →
      ∃ h, (search_files fs locs query file_type max_results).head? = some h ∧
        h.type = "folder" ∧
        charListLE (pyLower h.name).data (pyLower e.name).data = true) := by
  have hperm := List.perm_insertionSort entryLEP
    (collectLocations fs query file_type max_results locs [])
  have hsorted : List.Sorted entryLEP (search_files fs locs query file_type max_results) :=
    List.sorted_insertionSort entryLEP _
  refine ⟨?_, ?_, hsorted, ?_⟩
  · unfold search_files
    rw [hperm.length_eq]
    exact collectLocations_length fs query file_type max_results locs [] (by simp)
  · intro e he
    have := collectLocations_mem fs query file_type max_results locs [] e
      (by unfold search_files at he; exact hperm.mem_iff.mp he)
    simpa using this
  · intro e he hf
    exact sorted_head_folder_min _ hsorted e he hf

/-- C10 witness: on the concrete fixture, the sorted search output starts
with a folder entry that alphabetically precedes the other returned folder. -/
theorem search_files_result_shape_witness :
    ∃ h, (search_files witnessFS ["home"] "doc" none 50).head? = some h ∧
      h.type = "folder" ∧
      charListLE (pyLower h.name).data (pyLower (mkFolderEntry "home/notes").name).data
        = true :=
  (search_files_result_shape witnessFS ["home"] "doc" none 50).2.2.2
    (mkFolderEntry "home/notes") (by decide) (by decide)

/-- C5: for every SYSTEM_COMMAND dispatch, the Result's success flag is true
exactly when the shell invocation itself does not raise, irrespective of the
child process's exit code (the witness instantiates a child exiting with
return code 1, still reported with success = true). -/
theorem system_command_success_iff_no_raise
    (env : Env) (ctx : Context) (command : String) (interp : Intent)
    (hne : command ≠ "") (hexit : hasExitKeyword command = false)
    (hint : env.interpret command = some interp)
    (haction : interp.action = "SYSTEM_COMMAND") :
    ∃ r, (process_command env ctx command).1 = Except.ok r ∧
      (r.success = true ↔ shellOk (env.shellOutcome interp.target) = true) := by
  simp only [process_command, hne, hexit, hint, haction]
  refine ⟨_, rfl, ?_⟩
  cases houtcome : env.shellOutcome interp.target with
  | ok r => simp [execute_system_command, shellOk, houtcome]
  | error e => simp [execute_system_command, shellOk, houtcome]

/-- C5 witness: the concrete dispatch whose child process exits with return
code 1 (and whose invocation does not raise) is reported with success
equivalent to that non-raising outcome, i.e. success = true. -/
theorem system_command_success_iff_no_raise_witness :
    shellOk (c5Env.shellOutcome "exit 1") = true ∧
    ∃ r, (process_command c5Env {} "run it").1 = Except.ok r ∧
      (r.success = true ↔ shellOk (c5Env.shellOutcome sysIntent.target) = true) :=
  ⟨by decide,
   system_command_success_iff_no_raise c5Env {} "run it" sysIntent
     (by decide) (by decide) rfl rfl⟩

/-- C9: a command containing `exit`, `quit` or `goodbye` case-insensitively
as a substring short-circuits to a successful `exit` Result with an empty
backend trace (so the Intent Parser and LLM Gateway are never invoked), and
the empty command yields the failure Result `No command received`, likewise
with an empty trace. -/
theorem exit_and_empty_short_circuit (env : Env) (ctx : Context) (command : String)
    (hne : command ≠ "") (hexit : hasExitKeyword command = true) :
    process_command env ctx command =
      (Except.ok { success := true, response := "Goodbye!", action := some "exit" },
        ctx, []) ∧
    process_command env ctx "" =
      (Except.ok { success := false, response := "No command received" }, ctx, []) := by
  constructor
  · simp [process_command, hne, hexit]
  · simp [process_command]

/-- C9 witness: the concrete command `please EXIT now` short-circuits, and
the empty command is rejected, both with no backend calls. -/
theorem exit_and_empty_short_circuit_witness :
    process_command baseEnv {} "please EXIT now" =
      (Except.ok { success := true, response := "Goodbye!", action := some "exit" },
        {}, []) ∧
    process_command baseEnv {} "" =
      (Except.ok { success := false, response := "No command received" }, {}, []) :=
  exit_and_empty_short_circuit baseEnv {} "please EXIT now" (by decide) (by decide)

/-- C1 (code evaluated at the failing input): dispatching the command
`find report`, interpreted as SEARCH_FILES with a non-empty backend result
list, leaves `context['last_search_results']` empty — `process_command`
(`jarvis_ai.py:207-234`) never assigns it, it only returns the results in the
Result envelope, while `FileService.search_files` updates its own separate
`last_search_results` attribute that dispatch never reads. -/
theorem search_files_dispatch_never_updates_context :
    (process_command c1Env {} "find report").2.1.last_search_results = [] ∧
    c1Env.searchFiles "report" none ≠ [] ∧
    (process_command c1Env {} "find report").1 =
      Except.ok { success := true, response := "Found 0 folders and 1 files.",
                  action := some "search_files", results := some [reportEntry] } :=
  ⟨rfl, by decide, rfl⟩

/-- C2: for every OPEN_FILE dispatch whose target is a digit string of
positive value `k` with `k` at most the length of the non-empty stored
`last_search_results`, the dispatcher opens the path of the k-th (1-based)
stored entry directly, and performs no fresh file search. -/
theorem open_file_ordinal_opens_kth_without_search
    (env : Env) (ctx : Context) (command : String) (interp : Intent) (k : Nat)
    (hne : command ≠ "") (hexit : hasExitKeyword command = false)
    (hint : env.interpret command = some interp)
    (haction : interp.action = "OPEN_FILE")
    (hdigit : pyIsDigitStr interp.target = true)
    (hval : pyIntOfDigits interp.target = k)
    (hk1 : 1 ≤ k) (hk2 : k ≤ ctx.last_search_results.length) :
    ∃ e, ctx.last_search_results[k - 1]? = some e ∧
      Effect.openFile e.path ∈ (process_command env ctx command).2.2 ∧
      noSearchEffect (process_command env ctx command).2.2 = true := by
  have hnem : ctx.last_search_results.isEmpty = false := by
    cases hl : ctx.last_search_results with
    | nil => rw [hl] at hk2; simp at hk2; omega
    | cons a t => simp
  have hbound : 0 ≤ (pyIntOfDigits interp.target : Int) - 1 ∧
      (pyIntOfDigits interp.target : Int) - 1 <
        (ctx.last_search_results.length : Int) := by
    rw [hval]
    omega
  have htn : ((pyIntOfDigits interp.target : Int) - 1).toNat = k - 1 := by
    rw [hval]
    omega
  have hlt : k - 1 < ctx.last_search_results.length := by omega
  simp only [process_command, hne, hexit, hint, haction, hdigit, hnem,
    Bool.not_false, Bool.and_self, if_true, reduceIte]
  rw [if_pos hbound]
  rw [htn]
  refine ⟨ctx.last_search_results.getD (k - 1) dummyEntry, ?_, ?_⟩
  · rw [List.getD_eq_getElem?_getD, List.getElem?_eq_getElem hlt]
    simp
  · cases hinfo : env.getFileInfoName
        (ctx.last_search_results.getD (k - 1) dummyEntry).path with
    | some nm =>
      simp [hinfo, noSearchEffect, isSearchEffect]
    | none =>
      simp [hinfo, noSearchEffect, isSearchEffect]

/-- C2 witness: with two stored results and the command interpreted as
OPEN_FILE with target `2`, the dispatcher opens the second stored path with
no fresh search. -/
theorem open_file_ordinal_opens_kth_without_search_witness :
    ∃ e, twoResultsCtx.last_search_results[2 - 1]? = some e ∧
      Effect.openFile e.path ∈ (process_command c2Env twoResultsCtx "open 2").2.2 ∧
      noSearchEffect (process_command c2Env twoResultsCtx "open 2").2.2 = true :=
  open_file_ordinal_opens_kth_without_search c2Env twoResultsCtx "open 2"
    openIntentTwo 2 (by decide) (by decide) rfl rfl (by decide) (by decide)
    (by decide) (by decide)

/-- C3: for every OPEN_FILE dispatch whose target is a digit string of value
`k` exceeding the length of the non-empty stored `last_search_results`, the
dispatcher returns the failure Result `File not found.` without any
out-of-range access, without opening anything and without a fresh search
(its trace is the parser call alone). -/
theorem open_file_ordinal_out_of_range_not_found
    (env : Env) (ctx : Context) (command : String) (interp : Intent) (k : Nat)
    (hne : command ≠ "") (hexit : hasExitKeyword command = false)
    (hint : env.interpret command = some interp)
    (haction : interp.action = "OPEN_FILE")
    (hdigit : pyIsDigitStr interp.target = true)
    (hval : pyIntOfDigits interp.target = k)
    (hnem : ctx.last_search_results ≠ [])
    (hk : ctx.last_search_results.length < k) :
    process_command env ctx command =
      (Except.ok { success := false, response := "File not found." }, ctx,
        [Effect.interpret command]) := by
  have hnem' : ctx.last_search_results.isEmpty = false := by
    cases hl : ctx.last_search_results with
    | nil => exact absurd hl hnem
    | cons a t => simp
  have hnbound : ¬(0 ≤ (pyIntOfDigits interp.target : Int) - 1 ∧
      (pyIntOfDigits interp.target : Int) - 1 <
        (ctx.last_search_results.length : Int)) := by
    rw [hval]
    omega
  simp only [process_command, hne, hexit, hint, haction, hdigit, hnem',
    Bool.not_false, Bool.and_self, if_true, reduceIte]
  rw [if_neg hnbound]
  simp

/-- C3 witness: with two stored results and the command interpreted as
OPEN_FILE with target `99`, the dispatcher returns `File not found.` with
only the parser call in its trace. -/
theorem open_file_ordinal_out_of_range_not_found_witness :
    process_command c3Env twoResultsCtx "open 99" =
      (Except.ok { success := false, response := "File not found." }, twoResultsCtx,
        [Effect.interpret "open 99"]) :=
  open_file_ordinal_out_of_range_not_found c3Env twoResultsCtx "open 99"
    openIntentNinetyNine 99 (by decide) (by decide) rfl rfl (by decide) (by decide)
    (by decide) (by decide)

/-- C8 counterexample: the alias table key is `one_drive`, not `onedrive`.
On a Windows environment where the user's OneDrive folder exists, resolving
the name `onedrive` (with no candidate paths, an empty filesystem for the
search fallback, and no literal path) returns `none` instead of opening the
well-known OneDrive path that the claimed alias table
(downloads/documents/desktop/pictures/music/videos/onedrive) would have
produced. -/
theorem open_folder_onedrive_alias_miss :
    oneDriveEnv.exists_path (pyJoin oneDriveEnv.userprofile "OneDrive") = true ∧
    open_folder oneDriveEnv emptyFS [] "onedrive" [] = none :=
  ⟨by decide, by decide⟩

/-- C8 (amended): on Windows, folder resolution tries sources in this exact
order and returns on the first existing match — the fixed well-known alias
table with keys downloads/documents/desktop/pictures/music/videos/one_drive,
then each `folder_paths` entry after environment and user expansion, then a
file search for a matching folder, then the raw string as a literal path;
in particular an alias-table hit (such as `downloads`) wins before any
`folder_paths` candidate, whatever candidates exist. -/
theorem open_folder_resolution_order
    (env : FolderEnv) (fs : FileSystem) (locs : List String)
    (folder_name : String) (folder_paths : List String)
    (hwin : env.os_type = "Windows") :
    open_folder env fs locs folder_name folder_paths =
      (((alias_resolve env folder_name).orElse
          (fun _ => first_existing_template env folder_paths)).orElse
        (fun _ => folder_search_resolve fs locs folder_name)).orElse
        (fun _ => literal_resolve env folder_name) ∧
    (∀ p, alias_resolve env folder_name = some p →
      ∀ other_paths, open_folder env fs locs folder_name other_paths = some p) := by
  constructor
  · simp only [open_folder, hwin, if_true, reduceIte]
    cases ha : alias_resolve env folder_name with
    | some p => simp [Option.orElse, ha]
    | none =>
      cases ht : first_existing_template env folder_paths with
      | some p => simp [Option.orElse, ha, ht]
      | none =>
        cases hs : folder_search_resolve fs locs folder_name with
        | some p => simp [Option.orElse, ha, ht, hs]
        | none => simp [Option.orElse, ha, ht, hs]
  · intro p hp other_paths
    simp [open_folder, hwin, hp]

/-- C8 witness: with both the well-known Downloads path and a `folder_paths`
candidate existing, the input `downloads` resolves to the alias-table path,
for that candidate list as for any other. -/
theorem open_folder_resolution_order_witness :
    alias_resolve downloadsEnv "downloads" = some "C:/Users/u/Downloads" ∧
    downloadsEnv.exists_path "D:/alt" = true ∧
    open_folder downloadsEnv emptyFS [] "downloads" ["D:/alt"] =
      some "C:/Users/u/Downloads" :=
  ⟨by decide, by decide,
   (open_folder_resolution_order downloadsEnv emptyFS [] "downloads" ["D:/alt"]
      rfl).2 "C:/Users/u/Downloads" (by decide) ["D:/alt"]⟩
